import Mathlib

/-!
Verification of the math2 repository: canvas crop pipeline (utils/imageUtils.ts
and the FileUpload crop widget), the App gating / premium state machine
(App.tsx), the bilingual UI string tables (constants) and the Gemini service
wrapper (services/geminiService).  Coordinates and canvas geometry are embedded
over the rationals; JavaScript numbers are modelled exactly.
-/

namespace Math2

/-! ### Planar geometry helpers

A rotation is carried as the pair `(cos θ, sin θ)`.  The canvas `rotate`
matrix is `[[cos, -sin], [sin, cos]]`. -/

/-- Apply the canvas rotation matrix `[[c, -s], [s, c]]` to a vector. -/
def rotApply (r : ℚ × ℚ) (v : ℚ × ℚ) : ℚ × ℚ :=
  (r.1 * v.1 - r.2 * v.2, r.2 * v.1 + r.1 * v.2)

/-- Apply the transpose (inverse, for a unit rotation) of the canvas rotation
matrix to a vector. -/
def rotUnapply (r : ℚ × ℚ) (v : ℚ × ℚ) : ℚ × ℚ :=
  (r.1 * v.1 + r.2 * v.2, r.1 * v.2 - r.2 * v.1)

/-- A source-image pixel coordinate is valid when it lies inside the natural
bounds `[0, W) × [0, H)` of the image. -/
def inBounds (W H : ℚ) (q : ℚ × ℚ) : Bool :=
  decide (0 ≤ q.1 ∧ q.1 < W ∧ 0 ≤ q.2 ∧ q.2 < H)

/-! ### utils/imageUtils.ts -/

/-- `getRotatedImageSize` (imageUtils.ts lines 37-46): bounding box of the
rotated `width × height` rectangle, with the rotation given as
`(cos θ, sin θ)`. -/
def getRotatedImageSize (width height : ℚ) (r : ℚ × ℚ) : ℚ × ℚ :=
  (|r.1| * width + |r.2| * height, |r.2| * width + |r.1| * height)

/-- The crop rectangle `{x, y, width, height}` handed to `getCroppedImg`. -/
structure CropRect where
  x : ℚ
  y : ℚ
  width : ℚ
  height : ℚ

/-- Forward transform of `getCroppedImg` (imageUtils.ts lines 74-80): the
intermediate canvas is the rotated bounding box of the natural image size, the
context is transformed by `translate(rw/2, rh/2) · rotate(θ) · scale(z, z)`,
and the image is drawn at `(-W/2, -H/2)` at natural size.  `croppedImgPoint`
sends an image pixel `q` to the intermediate-canvas point it is drawn at. -/
def croppedImgPoint (W H : ℚ) (r : ℚ × ℚ) (z : ℚ) (q : ℚ × ℚ) : ℚ × ℚ :=
  let rwh := getRotatedImageSize W H r
  let u : ℚ × ℚ := (q.1 - W / 2, q.2 - H / 2)
  let v : ℚ × ℚ := (z * u.1, z * u.2)
  let w := rotApply r v
  (w.1 + rwh.1 / 2, w.2 + rwh.2 / 2)

/-- Inverse of `croppedImgPoint`: the image pixel shown at a given point of the
intermediate canvas of `getCroppedImg`. -/
def croppedImgSrc (W H : ℚ) (r : ℚ × ℚ) (z : ℚ) (p : ℚ × ℚ) : ℚ × ℚ :=
  let rwh := getRotatedImageSize W H r
  let w : ℚ × ℚ := (p.1 - rwh.1 / 2, p.2 - rwh.2 / 2)
  let v := rotUnapply r w
  (v.1 / z + W / 2, v.2 / z + H / 2)

/-- The raster of the intermediate canvas of `getCroppedImg`: at each canvas
point, the source-image pixel rendered there (`none` = transparent
background). -/
def intermediateRaster (W H : ℚ) (r : ℚ × ℚ) (z : ℚ) (p : ℚ × ℚ) :
    Option (ℚ × ℚ) :=
  let q := croppedImgSrc W H r z p
  if inBounds W H q then some q else none

/-- The observable output of `getCroppedImg`: the dimensions of the output
canvas handed to `toBlob`, and for each output pixel the source-image pixel it
shows. -/
structure CroppedOutput where
  width : ℚ
  height : ℚ
  pixel : ℚ × ℚ → Option (ℚ × ℚ)

/-- `getCroppedImg` (imageUtils.ts lines 57-108): render the image on the
intermediate canvas with `translate(rw/2, rh/2) · rotate(θ) · scale(z, z)` at
`(-W/2, -H/2)`, take `getImageData(crop.x, crop.y, crop.width, crop.height)`,
and put it at `(0, 0)` of a fresh `crop.width × crop.height` canvas. -/
def getCroppedImg (W H : ℚ) (crop : CropRect) (r : ℚ × ℚ) (z : ℚ) :
    CroppedOutput :=
  { width := crop.width
    height := crop.height
    pixel := fun p => intermediateRaster W H r z (crop.x + p.1, crop.y + p.2) }

/-! ### FileUpload: drawImageOnCanvas (part_003 lines 125-184) -/

/-- Forward transform of `drawImageOnCanvas`: the display canvas is `cw × ch`,
the context is transformed by
`translate(cw/2, ch/2) · rotate(θ) · translate(-cw/2, -ch/2)`, and the image is
drawn at `((cw - W·z)/2 + dx, (ch - H·z)/2 + dy)` scaled to `W·z × H·z`.
`displayPoint` sends an image pixel `q` to the display-canvas point it is
drawn at. -/
def displayPoint (W H cw ch : ℚ) (r : ℚ × ℚ) (z dx dy : ℚ) (q : ℚ × ℚ) :
    ℚ × ℚ :=
  let initX := (cw - W * z) / 2 + dx
  let initY := (ch - H * z) / 2 + dy
  let u : ℚ × ℚ := (initX + z * q.1, initY + z * q.2)
  let v := rotApply r (u.1 - cw / 2, u.2 - ch / 2)
  (v.1 + cw / 2, v.2 + ch / 2)

/-- Inverse of `displayPoint`: the image pixel shown at a given point of the
display canvas. -/
def displaySrc (W H cw ch : ℚ) (r : ℚ × ℚ) (z dx dy : ℚ) (p : ℚ × ℚ) :
    ℚ × ℚ :=
  let initX := (cw - W * z) / 2 + dx
  let initY := (ch - H * z) / 2 + dy
  let w := rotUnapply r (p.1 - cw / 2, p.2 - ch / 2)
  let u : ℚ × ℚ := (w.1 + cw / 2, w.2 + ch / 2)
  ((u.1 - initX) / z, (u.2 - initY) / z)

/-- The on-screen raster produced by `drawImageOnCanvas`: at each display-canvas
point, the source-image pixel rendered there (`none` = background). -/
def displayRaster (W H cw ch : ℚ) (r : ℚ × ℚ) (z dx dy : ℚ) (p : ℚ × ℚ) :
    Option (ℚ × ℚ) :=
  let q := displaySrc W H cw ch r z dx dy p
  if inBounds W H q then some q else none

/-- The fixed crop frame of `drawImageOnCanvas` (part_003 lines 158-181),
stored as `croppedAreaPixels`: a centred square of side
`min(cw, ch) * 0.7`, depending only on the display canvas size. -/
def cropFrame (cw ch : ℚ) : CropRect :=
  let s := min cw ch * (7 / 10)
  { x := (cw - s) / 2, y := (ch - s) / 2, width := s, height := s }

/-- `handleCropConfirm` (part_003 lines 255-273): calls
`getCroppedImg(imageRef, croppedAreaPixels, rotation, zoom, type)`.  The pan
state `(dx, dy)` (`crop.x`, `crop.y` of the widget) is part of the widget state
but is not among the arguments passed. -/
def handleCropConfirmOutput (W H cw ch : ℚ) (r : ℚ × ℚ) (z dx dy : ℚ) :
    CroppedOutput :=
  getCroppedImg W H (cropFrame cw ch) r z

/-! ### FileUpload widget state (part_003)

Every state-mutating operation of the crop widget is an event of `FUEvent`;
`fuStep` performs the state updates of the corresponding handler or effect. -/

/-- The local state of the `FileUpload` component (part_003 lines 15-30 and
228-229). -/
structure FUState where
  previewUrl : Option String
  imageToCropUrl : Option String
  isCropping : Bool
  crop : ℚ × ℚ
  zoom : ℚ
  rotation : ℤ
  croppedAreaPixels : Option CropRect
  imageLoading : Bool
  imageError : Option String
  isDragging : Bool
  startPoint : ℚ × ℚ

/-- Initial `useState` values of `FileUpload`. -/
def fuInit : FUState :=
  { previewUrl := none, imageToCropUrl := none, isCropping := false
    crop := (0, 0), zoom := 1, rotation := 0, croppedAreaPixels := none
    imageLoading := false, imageError := none, isDragging := false
    startPoint := (0, 0) }

/-- The state-mutating operations of `FileUpload`: the `selectedFile` effect
(both branches, lines 33-51), `handleClear` (62-76), `drawImageOnCanvas`
setting `croppedAreaPixels` (176-181), the image-loading effect (191-224),
the pointer handlers (231-249), the zoom slider (334), `handleRotate`
(251-253), `handleCropConfirm` (255-273) and `handleCropCancel` (275-277). -/
inductive FUEvent where
  | selectedFileSet (url : String)
  | selectedFileCleared
  | clear
  | canvasDraw (cw ch : ℚ)
  | imageLoadStart
  | imageLoadOk
  | imageLoadFail (msg : String)
  | pointerDown (cx cy : ℚ)
  | pointerMove (cx cy : ℚ)
  | pointerUp
  | zoomSet (z : ℚ)
  | rotate
  | cropConfirmOk
  | cropConfirmFail
  | cropCancel

/-- One state-update step of the `FileUpload` widget. -/
def fuStep (s : FUState) : FUEvent → FUState
  | .selectedFileSet url =>
      { s with previewUrl := some url, imageToCropUrl := some url,
               isCropping := true }
  | .selectedFileCleared =>
      { s with previewUrl := none, imageToCropUrl := none, isCropping := false,
               zoom := 1, rotation := 0, crop := (0, 0),
               croppedAreaPixels := none, imageLoading := false,
               imageError := none }
  | .clear =>
      { s with isCropping := false, imageToCropUrl := none, zoom := 1,
               rotation := 0, crop := (0, 0), croppedAreaPixels := none,
               imageLoading := false, imageError := none }
  | .canvasDraw cw ch =>
      { s with croppedAreaPixels := some (cropFrame cw ch) }
  | .imageLoadStart =>
      { s with imageLoading := true, imageError := none }
  | .imageLoadOk =>
      { s with imageLoading := false }
  | .imageLoadFail msg =>
      { s with imageError := some msg, imageLoading := false }
  | .pointerDown cx cy =>
      { s with isDragging := true,
               startPoint := (cx - s.crop.1, cy - s.crop.2) }
  | .pointerMove cx cy =>
      if s.isDragging then
        { s with crop := (cx - s.startPoint.1, cy - s.startPoint.2) }
      else s
  | .pointerUp =>
      { s with isDragging := false }
  | .zoomSet z =>
      { s with zoom := z }
  | .rotate =>
      { s with rotation := (s.rotation + 90) % 360 }
  | .cropConfirmOk =>
      { s with isCropping := false, imageToCropUrl := none }
  | .cropConfirmFail =>
      { s with imageError := some "Failed to crop image." }
  | .cropCancel =>
      { s with isCropping := false, imageToCropUrl := none, zoom := 1,
               rotation := 0, crop := (0, 0), croppedAreaPixels := none,
               imageLoading := false, imageError := none }

/-- The widget state after a sequence of events, starting from the initial
state. -/
def fuRun (es : List FUEvent) : FUState :=
  es.foldl fuStep fuInit

/-! ### Bilingual string tables (constants, part_000 lines 3-60) -/

/-- The `Language` enum. -/
inductive Language where
  | EN
  | MS
deriving DecidableEq

/-- The `UI_TEXT` table for `Language.EN`, as an association list in source
order. -/
def uiTextEN : List (String × String) :=
  [("appTitle", "MathSolver MY"),
   ("appSubtitle", "Solve Math Problems Instantly!"),
   ("uploadButton", "Upload Question Image"),
   ("uploadPrompt", "Tap here to upload a math question image or take a photo."),
   ("processing", "Solving your problem..."),
   ("error", "Error: Failed to solve the problem. Please try again."),
   ("solutionTitle", "Solution"),
   ("steps", "Steps"),
   ("englishTab", "English"),
   ("bahasaMelayuTab", "Bahasa Melayu"),
   ("noSolution", "No solution available yet. Please upload an image to start."),
   ("selectLanguage", "Select Language"),
   ("modelError", "Failed to get solution from model. Please ensure the image is clear and contains a solvable math problem."),
   ("apiError", "API Error: Please check your network connection or API key."),
   ("clear", "Clear"),
   ("cropImage", "Crop Image"),
   ("zoom", "Zoom"),
   ("rotate", "Rotate"),
   ("cropButton", "Crop"),
   ("cancelButton", "Cancel"),
   ("loadingImage", "Loading image..."),
   ("imageLoadError", "Failed to load image for cropping."),
   ("apiKeyRequiredTitle", "API Key Required"),
   ("apiKeyRequiredMessage", "To use advanced Gemini models for image solving, you need to select an API key linked to a paid Google Cloud Project."),
   ("selectApiKeyButton", "Select API Key"),
   ("billingInfo", "View billing information")]

/-- The `UI_TEXT` table for `Language.MS`, as an association list in source
order. -/
def uiTextMS : List (String × String) :=
  [("appTitle", "Penyelesai Matematik MY"),
   ("appSubtitle", "Selesaikan Masalah Matematik Serta-Merta!"),
   ("uploadButton", "Muat Naik Gambar Soalan"),
   ("uploadPrompt", "Ketuk di sini untuk memuat naik gambar soalan matematik atau ambil foto."),
   ("processing", "Menyelesaikan masalah anda..."),
   ("error", "Ralat: Gagal menyelesaikan masalah. Sila cuba lagi."),
   ("solutionTitle", "Penyelesaian"),
   ("steps", "Langkah-langkah"),
   ("englishTab", "Inggeris"),
   ("bahasaMelayuTab", "Bahasa Melayu"),
   ("noSolution", "Tiada penyelesaian tersedia lagi. Sila muat naik imej untuk bermula."),
   ("selectLanguage", "Pilih Bahasa"),
   ("modelError", "Gagal mendapatkan penyelesaian daripada model. Sila pastikan imej jelas dan mengandungi masalah matematik yang boleh diselesaikan."),
   ("apiError", "Ralat API: Sila semak sambungan rangkaian atau kunci API anda."),
   ("clear", "Padam"),
   ("cropImage", "Pangkas Imej"),
   ("zoom", "Zum"),
   ("rotate", "Putar"),
   ("cropButton", "Pangkas"),
   ("cancelButton", "Batal"),
   ("loadingImage", "Memuatkan imej..."),
   ("imageLoadError", "Gagal memuatkan imej untuk pemangkasan."),
   ("apiKeyRequiredTitle", "Kunci API Diperlukan"),
   ("apiKeyRequiredMessage", "Untuk menggunakan model Gemini lanjutan bagi penyelesaian imej, anda perlu memilih kunci API yang disambungkan kepada Projek Google Cloud berbayar."),
   ("selectApiKeyButton", "Pilih Kunci API"),
   ("billingInfo", "Lihat maklumat pengebilan")]

/-- `UI_TEXT` indexed by language. -/
def uiText : Language → List (String × String)
  | .EN => uiTextEN
  | .MS => uiTextMS

/-- `text.<key>` lookup used throughout `App`; a missing key is JavaScript
`undefined`, modelled as `none`. -/
def textLookup (l : Language) (key : String) : Option String :=
  (uiText l).lookup key

/-- The string actually handed to `setError` and friends: the looked-up value
(these keys all exist in `UI_TEXT`, so the default is never reached). -/
def textOf (l : Language) (key : String) : String :=
  (textLookup l key).getD ""

/-- The premium-flow keys referenced by `App` (lines 127, 133, 212, 242-243,
253, 256) that are absent from `UI_TEXT`. -/
def premiumFlowKeys : List String :=
  ["purchaseSuccess", "purchaseError", "purchasing", "premiumAccessTitle",
   "premiumAccessMessage", "purchasePremiumButton", "continueWithApiKeyButton"]

/-! ### App component state (App.tsx) -/

/-- The `MathSolution` interface (types). -/
structure MathSolution where
  titleEn : String
  titleMs : String
  solutionEn : String
  solutionMs : String
  stepsEn : List String
  stepsMs : List String

/-- The `ApiResponse` as it reaches `fetchSolution`: `JSON.parse` is not
validated, so the `solution` field may be absent (`response?.solution`
falsy). -/
structure ApiResponse where
  solution : Option MathSolution

/-- The `useState` fields of `App` (App.tsx lines 34-43) together with the
`isPremiumUser` key of the browser local storage. -/
structure AppState where
  selectedFile : Option String
  solution : Option MathSolution
  loading : Bool
  error : Option String
  language : Language
  activeTab : Language
  hasSelectedApiKey : Bool
  isPremiumUser : Bool
  purchaseLoading : Bool
  proceedWithApiKey : Bool
  storedPremium : Option String

/-- The initial `App` state on mount; `storedPremium` is whatever the browser
already holds under `localStorage["isPremiumUser"]`. -/
def appInit (stored : Option String) : AppState :=
  { selectedFile := none, solution := none, loading := false, error := none
    language := .EN, activeTab := .EN, hasSelectedApiKey := false
    isPremiumUser := false, purchaseLoading := false
    proceedWithApiKey := false, storedPremium := stored }

/-- Environment probed by the mount effect: availability and result of
`window.aistudio.hasSelectedApiKey`, and presence of `process.env.API_KEY`. -/
structure CheckEnv where
  aistudioAvailable : Bool
  aistudioKeySelected : Bool
  envApiKeyPresent : Bool

/-- `checkStatus` (App.tsx lines 49-68).  Returns the updated state and whether
the API-key check was reached (the stored-premium branch returns before it). -/
def checkStatus (env : CheckEnv) (s : AppState) : AppState × Bool :=
  if s.storedPremium = some "true" then
    ({ s with isPremiumUser := true, hasSelectedApiKey := true }, false)
  else if env.aistudioAvailable then
    ({ s with hasSelectedApiKey := env.aistudioKeySelected }, true)
  else
    ({ s with hasSelectedApiKey := env.envApiKeyPresent }, true)

/-- `handleLanguageChange` (App.tsx lines 88-91). -/
def handleLanguageChange (lang : Language) (s : AppState) : AppState :=
  { s with language := lang, activeTab := lang }

/-- Result of `handlePurchasePremium`: the URL opened, the length of the
simulated-payment timer in milliseconds, and the state after the handler
finishes. -/
structure PurchaseResult where
  openedUrl : Option String
  delayMs : ℕ
  state : AppState

/-- `handlePurchasePremium` (App.tsx lines 112-139).  `window.open` and the
`setTimeout`-backed promise cannot reject, so the `try` body always takes the
success path: after the 3000 ms timer it sets premium and API-key state,
writes `"true"` to local storage and enables `proceedWithApiKey`, with no
payment verification of any kind (the handler consumes no payment outcome).
The payment link constant is imported from outside the sources, so it is a
parameter here. -/
def handlePurchasePremium (paymentLink : String) (s : AppState) :
    PurchaseResult :=
  { openedUrl := some paymentLink
    delayMs := 3000
    state := { s with isPremiumUser := true, hasSelectedApiKey := true,
                      storedPremium := some "true", error := none,
                      proceedWithApiKey := true, purchaseLoading := false } }

/-- `showFullApp` (App.tsx line 184). -/
def showFullApp (s : AppState) : Bool :=
  s.isPremiumUser || s.proceedWithApiKey

/-- What the `App` JSX renders (lines 197-349): the gating screen when
`showFullApp` is false, otherwise the `FileUpload` widget and, when a solution
is present, the solution panel. -/
structure RenderView where
  showsGatingScreen : Bool
  showsFileUpload : Bool
  showsSolutionPanel : Bool

/-- The render function of `App`. -/
def renderApp (s : AppState) : RenderView :=
  { showsGatingScreen := !showFullApp s
    showsFileUpload := showFullApp s
    showsSolutionPanel := showFullApp s && s.solution.isSome }

/-- JavaScript `String.prototype.includes`, executable via `splitOn`. -/
def containsSub (s pat : String) : Bool :=
  (s.splitOn pat).length != 1

/-- The outcome of the awaited `solveMathProblem` call inside
`fetchSolution`. -/
inductive SolveOutcome where
  | success (r : ApiResponse)
  | failure (msg : String)

/-- `fetchSolution` (App.tsx lines 144-176).  Returns the resulting state and
whether the solve call was actually issued; the guard at line 146 returns
early, leaving the state untouched, when no file is selected or the user is
neither premium nor proceeding with an API key. -/
def fetchSolution (s : AppState) (outcome : SolveOutcome) : AppState × Bool :=
  if s.selectedFile.isNone || (!s.isPremiumUser && !s.proceedWithApiKey) then
    (s, false)
  else
    match outcome with
    | .success r =>
      match r.solution with
      | some sol =>
          ({ s with loading := false, error := none, solution := some sol },
           true)
      | none =>
          ({ s with loading := false, solution := none,
                    error := some (textOf s.language "modelError") }, true)
    | .failure msg =>
      if !s.isPremiumUser && containsSub msg "Requested entity was not found."
      then
        ({ s with loading := false, solution := none,
                  error := some (textOf s.language "apiKeyRequiredMessage"),
                  hasSelectedApiKey := false, proceedWithApiKey := false },
         true)
      else if containsSub msg "Failed to parse model response" then
        ({ s with loading := false, solution := none,
                  error := some (textOf s.language "modelError" ++ " " ++ msg) },
         true)
      else
        ({ s with loading := false, solution := none,
                  error := some (textOf s.language "error") }, true)

/-! ### Gemini service wrapper (part_005) -/

/-- JSON values, for the structured model response. -/
inductive Json where
  | null
  | bool (b : Bool)
  | num (q : ℚ)
  | str (s : String)
  | arr (elems : List Json)
  | obj (fields : List (String × Json))

/-- Field lookup in a JSON object. -/
def jsonLookup : List (String × Json) → String → Option Json
  | [], _ => none
  | (k, v) :: rest, key => if k = key then some v else jsonLookup rest key

/-- Whether a JSON value is a string. -/
def jsonIsStr : Json → Bool
  | .str _ => true
  | _ => false

/-- Whether an object field exists and is a string. -/
def isStrField (fields : List (String × Json)) (key : String) : Bool :=
  match jsonLookup fields key with
  | some (.str _) => true
  | _ => false

/-- Whether an object field exists and is an array of strings. -/
def isStrArrField (fields : List (String × Json)) (key : String) : Bool :=
  match jsonLookup fields key with
  | some (.arr xs) => xs.all jsonIsStr
  | _ => false

/-- Conformance to the `responseSchema` literal passed to `generateContent`
(part_005 lines 56-79): an object with a required `solution` object whose
required fields `titleEn`, `titleMs`, `solutionEn`, `solutionMs` are strings
and `stepsEn`, `stepsMs` are arrays of strings.  This is the server-side
structured-output contract the call requests; it is not re-checked by the
client code. -/
def conformsResponseSchema (j : Json) : Bool :=
  match j with
  | .obj fields =>
    match jsonLookup fields "solution" with
    | some (.obj sf) =>
        isStrField sf "titleEn" && isStrField sf "titleMs" &&
        isStrField sf "solutionEn" && isStrField sf "solutionMs" &&
        isStrArrField sf "stepsEn" && isStrArrField sf "stepsMs"
    | _ => false
  | _ => false

/-- Extract the strings of a JSON array, failing on any non-string element. -/
def jsonStrings : List Json → Option (List String)
  | [] => some []
  | .str s :: rest => (jsonStrings rest).map (fun ss => s :: ss)
  | _ => none

/-- Read a full `MathSolution` out of a parsed model response. -/
def decodeMathSolution (j : Json) : Option MathSolution :=
  match j with
  | .obj fields =>
    match jsonLookup fields "solution" with
    | some (.obj sf) =>
      match jsonLookup sf "titleEn", jsonLookup sf "titleMs",
            jsonLookup sf "solutionEn", jsonLookup sf "solutionMs",
            jsonLookup sf "stepsEn", jsonLookup sf "stepsMs" with
      | some (.str a), some (.str b), some (.str c), some (.str d),
        some (.arr e), some (.arr f) =>
        match jsonStrings e, jsonStrings f with
        | some se, some sm => some ⟨a, b, c, d, se, sm⟩
        | _, _ => none
      | _, _, _, _, _, _ => none
    | _ => none
  | _ => none

/-- The trimmed `response.text` of the generative-AI call as it reaches lines
83-95 of the service: absent or empty, present but not valid JSON, or parsed
to a JSON value. -/
inductive ModelText where
  | empty
  | unparsable (raw : String)
  | parsed (j : Json)

/-- The tail of `solveMathProblem` (part_005 lines 83-96): an empty response
throws, a parse failure throws with the raw text appended, and otherwise the
promise resolves with the parsed value (no further validation). -/
def solveMathProblemModel : ModelText → Except String Json
  | .empty => .error "Model returned an empty response or invalid JSON."
  | .unparsable raw =>
      .error ("Failed to parse model response as JSON. Received: " ++ raw)
  | .parsed j => .ok j

/-- A concrete unlocked `App` state with a file selected, for instantiating
the `fetchSolution` theorems. -/
def unlockedWithFile : AppState :=
  { appInit none with selectedFile := some "math.png",
                      proceedWithApiKey := true }

/-- A concrete model response shaped like the example of the prompt template
(constants, part_000 lines 88-106). -/
def sampleResponseJson : Json :=
  .obj [("solution", .obj
    [("titleEn", .str "Solving for X"),
     ("titleMs", .str "Mencari nilai X"),
     ("solutionEn", .str "The value of X is 5."),
     ("solutionMs", .str "Nilai X ialah 5."),
     ("stepsEn", .arr [.str "1. Given the equation: X + 3 = 8",
                       .str "2. Simplify: X = 5"]),
     ("stepsMs", .arr [.str "1. Diberi persamaan: X + 3 = 8",
                       .str "2. Permudahkan: X = 5"])])]

end Math2

namespace Math2

/-! ### Rotation inversion lemmas -/

theorem rotUnapply_rotApply (r v : ℚ × ℚ) (hr : r.1 ^ 2 + r.2 ^ 2 = 1) :
    rotUnapply r (rotApply r v) = v := by
  simp only [rotApply, rotUnapply]
  rw [Prod.ext_iff]
  constructor
  · linear_combination v.1 * hr
  · linear_combination v.2 * hr

theorem rotApply_rotUnapply (r v : ℚ × ℚ) (hr : r.1 ^ 2 + r.2 ^ 2 = 1) :
    rotApply r (rotUnapply r v) = v := by
  simp only [rotApply, rotUnapply]
  rw [Prod.ext_iff]
  constructor
  · linear_combination v.1 * hr
  · linear_combination v.2 * hr

theorem croppedImgSrc_croppedImgPoint (W H : ℚ) (r : ℚ × ℚ) (z : ℚ)
    (q : ℚ × ℚ) (hz : z ≠ 0) (hr : r.1 ^ 2 + r.2 ^ 2 = 1) :
    croppedImgSrc W H r z (croppedImgPoint W H r z q) = q := by
  have h := rotUnapply_rotApply r (z * (q.1 - W / 2), z * (q.2 - H / 2)) hr
  simp only [croppedImgSrc, croppedImgPoint, add_sub_cancel_right, h]
  rw [Prod.ext_iff]
  constructor <;> field_simp <;> ring

theorem croppedImgPoint_croppedImgSrc (W H : ℚ) (r : ℚ × ℚ) (z : ℚ)
    (p : ℚ × ℚ) (hz : z ≠ 0) (hr : r.1 ^ 2 + r.2 ^ 2 = 1) :
    croppedImgPoint W H r z (croppedImgSrc W H r z p) = p := by
  simp only [croppedImgSrc, croppedImgPoint, add_sub_cancel_right]
  rw [mul_div_cancel₀ _ hz, mul_div_cancel₀ _ hz]
  rw [Prod.mk.injEq]
  have h := rotApply_rotUnapply r
    (p.1 - (getRotatedImageSize W H r).1 / 2,
     p.2 - (getRotatedImageSize W H r).2 / 2) hr
  rw [show rotUnapply r (p.1 - (getRotatedImageSize W H r).1 / 2,
        p.2 - (getRotatedImageSize W H r).2 / 2) =
      ((rotUnapply r (p.1 - (getRotatedImageSize W H r).1 / 2,
        p.2 - (getRotatedImageSize W H r).2 / 2)).1,
       (rotUnapply r (p.1 - (getRotatedImageSize W H r).1 / 2,
        p.2 - (getRotatedImageSize W H r).2 / 2)).2) from rfl] at h
  rw [h]
  constructor <;> ring

theorem displaySrc_displayPoint (W H cw ch : ℚ) (r : ℚ × ℚ) (z dx dy : ℚ)
    (q : ℚ × ℚ) (hz : z ≠ 0) (hr : r.1 ^ 2 + r.2 ^ 2 = 1) :
    displaySrc W H cw ch r z dx dy (displayPoint W H cw ch r z dx dy q) = q := by
  simp only [displaySrc, displayPoint, add_sub_cancel_right]
  rw [rotUnapply_rotApply _ _ hr]
  rw [Prod.mk.injEq]
  constructor <;> field_simp

/-! ### Helper lemmas for the state machines and the service -/

theorem fuStep_rotation (s : FUState) (e : FUEvent) :
    (fuStep s e).rotation = s.rotation ∨
    (fuStep s e).rotation = (s.rotation + 90) % 360 ∨
    (fuStep s e).rotation = 0 := by
  cases e
  all_goals
    first
    | exact Or.inl rfl
    | exact Or.inr (Or.inl rfl)
    | exact Or.inr (Or.inr rfl)
    | (simp only [fuStep]; split <;> exact Or.inl rfl)

theorem fu_fold_rotation (es : List FUEvent) :
    ∀ s : FUState,
      (s.rotation = 0 ∨ s.rotation = 90 ∨ s.rotation = 180 ∨
        s.rotation = 270) →
      ((es.foldl fuStep s).rotation = 0 ∨ (es.foldl fuStep s).rotation = 90 ∨
        (es.foldl fuStep s).rotation = 180 ∨
        (es.foldl fuStep s).rotation = 270) := by
  induction es with
  | nil => exact fun s h => h
  | cons e rest ih =>
    intro s h
    simp only [List.foldl_cons]
    apply ih
    rcases fuStep_rotation s e with h1 | h1 | h1
    · rw [h1]; exact h
    · rw [h1]; rcases h with h | h | h | h <;> rw [h] <;> decide
    · rw [h1]; exact Or.inl rfl

theorem isStrField_spec (fs : List (String × Json)) (key : String)
    (h : isStrField fs key = true) :
    ∃ s, jsonLookup fs key = some (.str s) := by
  unfold isStrField at h
  rcases heq : jsonLookup fs key with _ | v
  · rw [heq] at h
    exact absurd h (by simp)
  · rw [heq] at h
    cases v <;> simp at h
    case str s => exact ⟨s, rfl⟩

theorem isStrArrField_spec (fs : List (String × Json)) (key : String)
    (h : isStrArrField fs key = true) :
    ∃ xs, jsonLookup fs key = some (.arr xs) ∧ xs.all jsonIsStr = true := by
  unfold isStrArrField at h
  rcases heq : jsonLookup fs key with _ | v
  · rw [heq] at h
    exact absurd h (by simp)
  · rw [heq] at h
    cases v <;> simp at h
    case arr xs => exact ⟨xs, rfl, by simpa using h⟩

theorem jsonStrings_of_all (xs : List Json) (h : xs.all jsonIsStr = true) :
    ∃ ss, jsonStrings xs = some ss := by
  induction xs with
  | nil => exact ⟨[], rfl⟩
  | cons x rest ih =>
    rw [List.all_cons, Bool.and_eq_true] at h
    obtain ⟨h1, h2⟩ := h
    cases x <;> simp [jsonIsStr] at h1
    case str s =>
      obtain ⟨ss, hss⟩ := ih h2
      exact ⟨s :: ss, by simp [jsonStrings, hss]⟩

/-! ### The claims -/

/-- C3: in every state of `App`, the gating screen is rendered iff the user is
neither premium nor proceeding with an API key
(`showFullApp = isPremiumUser || proceedWithApiKey`), and while it is shown the
file-upload and solution UI are not rendered and `fetchSolution` never issues
the solve call (and leaves the state untouched). -/
theorem gating_screen_iff_not_unlocked (s : AppState) :
    ((renderApp s).showsGatingScreen = true ↔
      ¬(s.isPremiumUser = true ∨ s.proceedWithApiKey = true)) ∧
    ((renderApp s).showsGatingScreen = true →
      (renderApp s).showsFileUpload = false ∧
      (renderApp s).showsSolutionPanel = false ∧
      ∀ outcome : SolveOutcome, fetchSolution s outcome = (s, false)) := by
  have hiff : (renderApp s).showsGatingScreen = true ↔
      ¬(s.isPremiumUser = true ∨ s.proceedWithApiKey = true) := by
    simp [renderApp, showFullApp]
  refine ⟨hiff, fun h => ?_⟩
  obtain ⟨hp, hq⟩ : s.isPremiumUser = false ∧ s.proceedWithApiKey = false := by
    rw [hiff] at h
    constructor
    · cases hb : s.isPremiumUser
      · rfl
      · exact absurd (Or.inl hb) h
    · cases hb : s.proceedWithApiKey
      · rfl
      · exact absurd (Or.inr hb) h
  refine ⟨?_, ?_, fun outcome => ?_⟩
  · simp [renderApp, showFullApp, hp, hq]
  · simp [renderApp, showFullApp, hp, hq]
  · simp [fetchSolution, hp, hq]

/-- Witness for C3: in the freshly mounted state the gating screen is shown,
nothing else is rendered, and no solve call is issued. -/
theorem gating_screen_iff_not_unlocked_witness :
    (renderApp (appInit none)).showsGatingScreen = true ∧
    ((renderApp (appInit none)).showsFileUpload = false ∧
      (renderApp (appInit none)).showsSolutionPanel = false ∧
      ∀ outcome : SolveOutcome,
        fetchSolution (appInit none) outcome = (appInit none, false)) :=
  ⟨rfl, (gating_screen_iff_not_unlocked (appInit none)).2 rfl⟩

/-- C4: `handlePurchasePremium` opens the payment link, waits on a fixed
3000 ms client-side timer, and then — consuming no payment outcome whatsoever —
sets `isPremiumUser`, `hasSelectedApiKey` and `proceedWithApiKey` to true and
writes `"true"` under `localStorage["isPremiumUser"]`, in every state. -/
theorem purchase_premium_simulated (link : String) (s : AppState) :
    (handlePurchasePremium link s).openedUrl = some link ∧
    (handlePurchasePremium link s).delayMs = 3000 ∧
    (handlePurchasePremium link s).state.isPremiumUser = true ∧
    (handlePurchasePremium link s).state.hasSelectedApiKey = true ∧
    (handlePurchasePremium link s).state.proceedWithApiKey = true ∧
    (handlePurchasePremium link s).state.storedPremium = some "true" :=
  ⟨rfl, rfl, rfl, rfl, rfl, rfl⟩

/-- C5: on mount, if `localStorage["isPremiumUser"]` is `"true"` then
`checkStatus` sets `isPremiumUser` and `hasSelectedApiKey` and returns without
reaching the API-key check; otherwise the API-key check runs and
`isPremiumUser` stays false. -/
theorem check_status_premium_storage (env : CheckEnv) (stored : Option String) :
    if stored = some "true" then
      (checkStatus env (appInit stored)).1.isPremiumUser = true ∧
      (checkStatus env (appInit stored)).1.hasSelectedApiKey = true ∧
      (checkStatus env (appInit stored)).2 = false
    else
      (checkStatus env (appInit stored)).2 = true ∧
      (checkStatus env (appInit stored)).1.isPremiumUser = false := by
  by_cases h : stored = some "true"
  · simp [checkStatus, appInit, h]
  · by_cases ha : env.aistudioAvailable <;> simp [checkStatus, appInit, h, ha]

/-- C8: the crop rotation starts at 0, `handleRotate` maps `r` to
`(r + 90) % 360`, clearing the file or the widget (including crop cancel)
resets it to 0, every other event leaves it unchanged, and along every event
sequence it stays in `{0, 90, 180, 270}`. -/
theorem rotation_quarter_turn_invariant :
    fuInit.rotation = 0 ∧
    (∀ s : FUState, (fuStep s .rotate).rotation = (s.rotation + 90) % 360) ∧
    (∀ s : FUState, (fuStep s .selectedFileCleared).rotation = 0 ∧
      (fuStep s .clear).rotation = 0 ∧ (fuStep s .cropCancel).rotation = 0) ∧
    (∀ (s : FUState) (e : FUEvent), (fuStep s e).rotation = s.rotation ∨
      (fuStep s e).rotation = (s.rotation + 90) % 360 ∨
      (fuStep s e).rotation = 0) ∧
    (∀ es : List FUEvent, (fuRun es).rotation = 0 ∨ (fuRun es).rotation = 90 ∨
      (fuRun es).rotation = 180 ∨ (fuRun es).rotation = 270) :=
  ⟨rfl, fun _ => rfl, fun _ => ⟨rfl, rfl, rfl⟩, fuStep_rotation,
    fun es => fu_fold_rotation es fuInit (Or.inl rfl)⟩

/-- C9: `handleLanguageChange` always sets the overall UI language and the
solution tab to the same language. -/
theorem language_change_syncs_tab (lang : Language) (s : AppState) :
    (handleLanguageChange lang s).language = lang ∧
    (handleLanguageChange lang s).activeTab = lang :=
  ⟨rfl, rfl⟩

/-- C10: the EN and MS tables of `UI_TEXT` define exactly the same keys, that
key set contains none of the premium-flow keys `App` references, and looking
any of those keys up yields no string in either language. -/
theorem ui_text_premium_keys_missing :
    uiTextEN.map Prod.fst = uiTextMS.map Prod.fst ∧
    (premiumFlowKeys.all fun k =>
      !((uiTextEN.map Prod.fst).contains k)) = true ∧
    (premiumFlowKeys.all fun k =>
      (textLookup .EN k).isNone && (textLookup .MS k).isNone) = true :=
  ⟨rfl, rfl, rfl⟩

/-- C2: a successful `getCroppedImg` call hands `toBlob` an output canvas of
exactly `crop.width × crop.height` pixels copied from the axis-aligned
rectangle at `(crop.x, crop.y)` of the transformed intermediate raster, and
that raster shows image pixel `q` at point `p` exactly when the
`translate · rotate · scale` render of `getCroppedImg` draws `q` at `p`. -/
theorem get_cropped_img_extracts_rect (W H : ℚ) (crop : CropRect)
    (r : ℚ × ℚ) (z : ℚ) (hz : z ≠ 0) (hr : r.1 ^ 2 + r.2 ^ 2 = 1) :
    (getCroppedImg W H crop r z).width = crop.width ∧
    (getCroppedImg W H crop r z).height = crop.height ∧
    (∀ p, (getCroppedImg W H crop r z).pixel p =
      intermediateRaster W H r z (crop.x + p.1, crop.y + p.2)) ∧
    (∀ p q, intermediateRaster W H r z p = some q ↔
      inBounds W H q = true ∧ croppedImgPoint W H r z q = p) := by
  refine ⟨rfl, rfl, fun p => rfl, fun p q => ?_⟩
  constructor
  · intro h
    unfold intermediateRaster at h
    by_cases hb : inBounds W H (croppedImgSrc W H r z p)
    · rw [if_pos hb] at h
      obtain rfl : croppedImgSrc W H r z p = q := Option.some.inj h
      exact ⟨hb, croppedImgPoint_croppedImgSrc W H r z p hz hr⟩
    · rw [if_neg hb] at h
      exact absurd h (by simp)
  · rintro ⟨hb, hp⟩
    unfold intermediateRaster
    rw [← hp, croppedImgSrc_croppedImgPoint W H r z q hz hr, if_pos hb]

/-- Witness for C2 at a concrete image, crop rectangle, rotation and zoom. -/
theorem get_cropped_img_extracts_rect_witness :
    (getCroppedImg 100 100 ⟨30, 30, 140, 140⟩ (1, 0) 1).width =
      (⟨30, 30, 140, 140⟩ : CropRect).width ∧
    (getCroppedImg 100 100 ⟨30, 30, 140, 140⟩ (1, 0) 1).height =
      (⟨30, 30, 140, 140⟩ : CropRect).height ∧
    (∀ p, (getCroppedImg 100 100 ⟨30, 30, 140, 140⟩ (1, 0) 1).pixel p =
      intermediateRaster 100 100 (1, 0) 1
        ((⟨30, 30, 140, 140⟩ : CropRect).x + p.1,
         (⟨30, 30, 140, 140⟩ : CropRect).y + p.2)) ∧
    (∀ p q, intermediateRaster 100 100 (1, 0) 1 p = some q ↔
      inBounds 100 100 q = true ∧ croppedImgPoint 100 100 (1, 0) 1 q = p) :=
  get_cropped_img_extracts_rect 100 100 ⟨30, 30, 140, 140⟩ (1, 0) 1
    (by norm_num) (by norm_num)

/-- C1 counterexample: with a 100×100 image on a 200×200 display canvas, no
rotation and zoom 1, panning by (10, 0) instead of (0, 0) leaves the cropped
output completely unchanged — the pan offset never reaches `getCroppedImg` —
and the cropped output is not read from the on-screen raster: output pixel
(0, 0) is image pixel (30, 30), yet the on-screen raster at the crop frame
corner (30, 30) shows no image pixel at all. -/
theorem crop_ignores_pan_counterexample :
    handleCropConfirmOutput 100 100 200 200 (1, 0) 1 10 0 =
      handleCropConfirmOutput 100 100 200 200 (1, 0) 1 0 0 ∧
    (handleCropConfirmOutput 100 100 200 200 (1, 0) 1 0 0).pixel (0, 0) =
      some (30, 30) ∧
    displayRaster 100 100 200 200 (1, 0) 1 0 0 (30, 30) = none := by
  have hcf : cropFrame 200 200 = ⟨30, 30, 140, 140⟩ := by
    simp only [cropFrame, CropRect.mk.injEq]
    norm_num
  refine ⟨rfl, ?_, ?_⟩
  · have hsrc : croppedImgSrc 100 100 (1, 0) 1 (30 + 0, 30 + 0) = (30, 30) := by
      simp only [croppedImgSrc, getRotatedImageSize, rotUnapply,
        Prod.mk.injEq]
      norm_num
    have hin : inBounds 100 100 ((30 : ℚ), (30 : ℚ)) = true := by
      simp only [inBounds, decide_eq_true_eq]
      norm_num
    simp only [handleCropConfirmOutput, getCroppedImg, intermediateRaster,
      hcf, hsrc, hin, if_true]
  · have hdsp : displaySrc 100 100 200 200 (1, 0) 1 0 0 (30, 30) =
        (-20, -20) := by
      simp only [displaySrc, rotUnapply, Prod.mk.injEq]
      norm_num
    have hout : inBounds 100 100 ((-20 : ℚ), (-20 : ℚ)) = false := by
      simp only [inBounds, decide_eq_false_iff_not]
      norm_num
    simp only [displayRaster, hdsp, hout, Bool.false_eq_true, if_false]

/-- C1 (amended): the on-screen preview applies
`translate(canvasCenter) · rotate(θ) · translate(-canvasCenter)` to the image
drawn at `(canvasCenter - (W·z, H·z)/2 + (dx, dy))`, but `getCroppedImg`
re-renders the image on a separate canvas (the rotated bounding box of the
natural size) with `translate(boundingCenter) · rotate(θ) · scale(z)` and the
image at `(-W/2, -H/2)`, extracting the fixed centred crop frame from that
raster; the pan offset `(dx, dy)` therefore affects only the preview and never
the cropped output. -/
theorem crop_pipeline_ignores_pan (W H cw ch : ℚ) (r : ℚ × ℚ)
    (z dx dy dx' dy' : ℚ) (p q : ℚ × ℚ) (hz : z ≠ 0)
    (hr : r.1 ^ 2 + r.2 ^ 2 = 1) :
    handleCropConfirmOutput W H cw ch r z dx dy =
      handleCropConfirmOutput W H cw ch r z dx' dy' ∧
    (inBounds W H q = true →
      croppedImgPoint W H r z q =
        ((cropFrame cw ch).x + p.1, (cropFrame cw ch).y + p.2) →
      (handleCropConfirmOutput W H cw ch r z dx dy).pixel p = some q) := by
  refine ⟨rfl, fun hb hq => ?_⟩
  show intermediateRaster W H r z
    ((cropFrame cw ch).x + p.1, (cropFrame cw ch).y + p.2) = some q
  rw [← hq]
  unfold intermediateRaster
  rw [croppedImgSrc_croppedImgPoint W H r z q hz hr, if_pos hb]

/-- Witness for the amended C1 at a concrete image, canvas, rotation, zoom and
pair of pan offsets. -/
theorem crop_pipeline_ignores_pan_witness :
    handleCropConfirmOutput 100 100 200 200 (1, 0) 1 5 7 =
      handleCropConfirmOutput 100 100 200 200 (1, 0) 1 0 0 ∧
    (handleCropConfirmOutput 100 100 200 200 (1, 0) 1 5 7).pixel (0, 0) =
      some (30, 30) :=
  ⟨(crop_pipeline_ignores_pan 100 100 200 200 (1, 0) 1 5 7 0 0 (0, 0) (30, 30)
      (by norm_num) (by norm_num)).1,
   (crop_pipeline_ignores_pan 100 100 200 200 (1, 0) 1 5 7 0 0 (0, 0) (30, 30)
      (by norm_num) (by norm_num)).2
    (by simp only [inBounds, decide_eq_true_eq]; norm_num)
    (by simp only [croppedImgPoint, getRotatedImageSize, rotApply, cropFrame,
          Prod.mk.injEq]
        norm_num)⟩

/-- C6: whenever the generative-AI call succeeds with a response conforming to
the `responseSchema` passed to it, `solveMathProblem` resolves with the parsed
value, which carries the full bilingual structure: a `solution` object with
string fields `titleEn`, `titleMs`, `solutionEn`, `solutionMs` and string-list
fields `stepsEn`, `stepsMs`. -/
theorem solve_math_problem_full_structure (j : Json)
    (h : conformsResponseSchema j = true) :
    solveMathProblemModel (.parsed j) = .ok j ∧
    ∃ sol : MathSolution, decodeMathSolution j = some sol := by
  refine ⟨rfl, ?_⟩
  cases j with
  | null => exact absurd h (by simp [conformsResponseSchema])
  | bool b => exact absurd h (by simp [conformsResponseSchema])
  | num q => exact absurd h (by simp [conformsResponseSchema])
  | str s => exact absurd h (by simp [conformsResponseSchema])
  | arr xs => exact absurd h (by simp [conformsResponseSchema])
  | obj fields =>
    simp only [conformsResponseSchema] at h
    rcases heq : jsonLookup fields "solution" with _ | v
    · rw [heq] at h
      exact absurd h (by simp)
    · rw [heq] at h
      cases v with
      | null => exact absurd h (by simp)
      | bool b => exact absurd h (by simp)
      | num q => exact absurd h (by simp)
      | str s => exact absurd h (by simp)
      | arr xs => exact absurd h (by simp)
      | obj sf =>
        simp only [Bool.and_eq_true] at h
        obtain ⟨⟨⟨⟨⟨h1, h2⟩, h3⟩, h4⟩, h5⟩, h6⟩ := h
        obtain ⟨a, ha⟩ := isStrField_spec sf "titleEn" h1
        obtain ⟨b, hb⟩ := isStrField_spec sf "titleMs" h2
        obtain ⟨c, hc⟩ := isStrField_spec sf "solutionEn" h3
        obtain ⟨d, hd⟩ := isStrField_spec sf "solutionMs" h4
        obtain ⟨e, he, he2⟩ := isStrArrField_spec sf "stepsEn" h5
        obtain ⟨f, hf, hf2⟩ := isStrArrField_spec sf "stepsMs" h6
        obtain ⟨se, hse⟩ := jsonStrings_of_all e he2
        obtain ⟨sm, hsm⟩ := jsonStrings_of_all f hf2
        refine ⟨⟨a, b, c, d, se, sm⟩, ?_⟩
        simp only [decodeMathSolution, heq, ha, hb, hc, hd, he, hf, hse, hsm]

/-- Witness for C6 at the concrete sample response. -/
theorem solve_math_problem_full_structure_witness :
    solveMathProblemModel (.parsed sampleResponseJson) =
      .ok sampleResponseJson ∧
    ∃ sol : MathSolution, decodeMathSolution sampleResponseJson = some sol :=
  solve_math_problem_full_structure sampleResponseJson rfl

/-- C7: every rejection of `solveMathProblem` reaching `fetchSolution` (with
the guard passed) is caught: the error state becomes one of the UI_TEXT
messages — `apiKeyRequiredMessage`, `modelError` with the underlying message
appended, or the generic `error` string — loading is reset to false, and the
solution stays null. -/
theorem fetch_solution_catches_failures (s : AppState) (msg : String)
    (hf : s.selectedFile.isSome = true)
    (hg : s.isPremiumUser = true ∨ s.proceedWithApiKey = true) :
    (fetchSolution s (.failure msg)).1.loading = false ∧
    (fetchSolution s (.failure msg)).1.solution = none ∧
    ((fetchSolution s (.failure msg)).1.error =
        some (textOf s.language "apiKeyRequiredMessage") ∨
      (fetchSolution s (.failure msg)).1.error =
        some (textOf s.language "modelError" ++ " " ++ msg) ∨
      (fetchSolution s (.failure msg)).1.error =
        some (textOf s.language "error")) := by
  have h0 : s.selectedFile.isNone = false := by
    cases hsf : s.selectedFile with
    | none => rw [hsf] at hf; simp at hf
    | some v => simp [hsf]
  have h1 : (!s.isPremiumUser && !s.proceedWithApiKey) = false := by
    rcases hg with h | h <;> simp [h]
  simp only [fetchSolution, h0, h1, Bool.or_false, Bool.false_or,
    Bool.false_eq_true, if_false]
  split
  · exact ⟨rfl, rfl, Or.inl rfl⟩
  · split
    · exact ⟨rfl, rfl, Or.inr (Or.inl rfl)⟩
    · exact ⟨rfl, rfl, Or.inr (Or.inr rfl)⟩

/-- Witness for C7: a concrete unlocked state with a file selected, and a
rejection matching none of the special patterns, lands on the generic error
string. -/
theorem fetch_solution_catches_failures_witness :
    unlockedWithFile.selectedFile.isSome = true ∧
    ((fetchSolution unlockedWithFile (.failure "network down")).1.loading =
      false ∧
     (fetchSolution unlockedWithFile (.failure "network down")).1.solution =
      none ∧
     ((fetchSolution unlockedWithFile (.failure "network down")).1.error =
        some (textOf unlockedWithFile.language "apiKeyRequiredMessage") ∨
      (fetchSolution unlockedWithFile (.failure "network down")).1.error =
        some (textOf unlockedWithFile.language "modelError" ++ " " ++
          "network down") ∨
      (fetchSolution unlockedWithFile (.failure "network down")).1.error =
        some (textOf unlockedWithFile.language "error"))) :=
  ⟨rfl, fetch_solution_catches_failures unlockedWithFile "network down" rfl
    (Or.inr rfl)⟩

end Math2
